import Mathlib

/-!
Shallow embedding of the core of `sqlite-csv-importer.py` (the second source
file `sqlite-db.py` is the same program minus docstrings): identifier
sanitization, CSV header normalization, SQL safety classification, column type
inference, and the CSV import / table export pipeline over an explicit
database state.  Python strings are Lean `String`s; machine integers do not
occur (Python ints are unbounded, modelled by `Int`/`Nat`); fallible code
returns `Except`.
-/

namespace SqliteCsvImporter

/-! ### Character classes and Python string primitives

All character classes are expressed through `Char.toNat` so that facts about
them reduce to `Nat` arithmetic.  Only the ASCII behaviour of Python's
`str.upper`/`str.lower` and of `int()`/`float()` digit parsing is modelled
(the repository's keyword tables, identifier pattern `[A-Za-z_][A-Za-z0-9_]*`
and error paths are all ASCII). -/

/-- `[A-Za-z]`. -/
def isAsciiLetter (c : Char) : Bool :=
  (65 ≤ c.toNat && c.toNat ≤ 90) || (97 ≤ c.toNat && c.toNat ≤ 122)

/-- `[0-9]`. -/
def isAsciiDigit (c : Char) : Bool :=
  48 ≤ c.toNat && c.toNat ≤ 57

/-- `[A-Za-z0-9_]`, the non-leading characters of `IDENT_RE`. -/
def isIdentChar (c : Char) : Bool :=
  isAsciiLetter c || isAsciiDigit c || c.toNat == 95

/-- `[A-Za-z_]`, the leading character of `IDENT_RE`. -/
def isIdentHead (c : Char) : Bool :=
  isAsciiLetter c || c.toNat == 95

/-- The characters stripped by Python's `str.strip()` (all code points with
`str.isspace() = True`: ASCII whitespace, the C1 controls `\x1c`-`\x1f` and
`\x85`, and the Unicode space separators). -/
def pyIsSpace (c : Char) : Bool :=
  (c.toNat == 32) || (9 ≤ c.toNat && c.toNat ≤ 13) ||
  (28 ≤ c.toNat && c.toNat ≤ 31) || (c.toNat == 133) || (c.toNat == 160) ||
  (c.toNat == 0x1680) || (0x2000 ≤ c.toNat && c.toNat ≤ 0x200a) ||
  (c.toNat == 0x2028) || (c.toNat == 0x2029) || (c.toNat == 0x202f) ||
  (c.toNat == 0x205f) || (c.toNat == 0x3000)

/-- Strip leading and trailing whitespace from a character list. -/
def stripChars (l : List Char) : List Char :=
  ((l.dropWhile pyIsSpace).reverse.dropWhile pyIsSpace).reverse

/-- Python `str.strip()`. -/
def pyStrip (s : String) : String := ⟨stripChars s.data⟩

/-- Python `str.upper()` (ASCII letters; the full Unicode case mapping, e.g.
`ß → SS`, is not modelled and is never hit by the repository's keyword data). -/
def pyUpper (s : String) : String :=
  ⟨s.data.map (fun c => if 97 ≤ c.toNat && c.toNat ≤ 122 then Char.ofNat (c.toNat - 32) else c)⟩

/-- Python `str.lower()` (ASCII letters). -/
def pyLower (s : String) : String :=
  ⟨s.data.map (fun c => if 65 ≤ c.toNat && c.toNat ≤ 90 then Char.ofNat (c.toNat + 32) else c)⟩

/-- Python `s.startswith(p)`. -/
def pyStartsWith (s p : String) : Bool := p.data.isPrefixOf s.data

/-- Python `s.endswith(p)`. -/
def pyEndsWith (s p : String) : Bool := p.data.isSuffixOf s.data

/-- A single decimal digit as a character. -/
def digitChar : Nat → Char
  | 0 => '0' | 1 => '1' | 2 => '2' | 3 => '3' | 4 => '4'
  | 5 => '5' | 6 => '6' | 7 => '7' | 8 => '8' | _ => '9'

/-- Decimal digit characters of `n`, most significant first, accumulated onto
`acc`; structural recursion on a fuel bound (`n` has at most `n + 1` digits)
so that the definition reduces inside the kernel. -/
def natDecimalAux : Nat → Nat → List Char → List Char
  | 0, _, acc => acc
  | fuel + 1, n, acc =>
    if n < 10 then digitChar n :: acc
    else natDecimalAux fuel (n / 10) (digitChar (n % 10) :: acc)

/-- Decimal rendering of a natural number (Python `str(n)` for `n ≥ 0`). -/
def natDecimal (n : Nat) : String := ⟨natDecimalAux (n + 1) n []⟩

/-- Decimal rendering of an integer (Python `str(i)`). -/
def intDecimal (i : Int) : String :=
  if i < 0 then "-" ++ natDecimal i.natAbs else natDecimal i.toNat

/-! ### Errors

The Python exception kinds raised by the program.  Message text follows the
source f-strings except where Python `repr` formatting is involved, where the
text is abbreviated; no claim depends on message text beyond identity. -/

inductive PyError where
  | valueError (msg : String)
  | fileExistsError (msg : String)
  | operationalError (msg : String)
deriving DecidableEq

/-! ### `IDENT_RE` and `sanitize_identifier` -/

/-- Full match of `IDENT_RE = ^[A-Za-z_][A-Za-z0-9_]*$` on a character list.
(`re.match` with a trailing `$` would also accept a single trailing newline,
but every string the program tests has just been `strip()`ped, so it never
ends in a newline and full-match semantics are exact.) -/
def identCharsOk : List Char → Bool
  | [] => false
  | c :: cs => isIdentHead c && cs.all isIdentChar

/-- `IDENT_RE.match(s)` as a Bool. -/
def isIdent (s : String) : Bool := identCharsOk s.data

/-- The `ValueError` message of `sanitize_identifier` (Python's `{name!r}`
repr-quoting is abbreviated to the bare name). -/
def invalidIdentMsg (name : String) : String :=
  "Invalid identifier: " ++ name ++
    ". Allowed: letters, numbers, underscore, not starting with number."

/-- `sanitize_identifier`: strip whitespace, then require `IDENT_RE` to match;
return the stripped name.  (The `isinstance(name, str)` guard is vacuous for a
`String`-typed input.) -/
def sanitize_identifier (name : String) : Except PyError String :=
  let name := pyStrip name
  if isIdent name then .ok name else .error (.valueError (invalidIdentMsg name))

/-! ### Header normalization (`import_csv` lines 160-168)

Python's built-in `hash` on strings is salted per process (PYTHONHASHSEED), so
the embedding takes the process's string-hash function as a parameter
`pyHash`; `hash(h) & 0xFFFF` on a (possibly negative) Python int equals
`pyHash h % 65536` with a nonnegative remainder. -/

/-- Normalization of one raw CSV header cell at positional index `i`:
strip, replace spaces by underscores, substitute `col{i}` for an empty result;
then, if `IDENT_RE` fails, replace every character outside `[A-Za-z0-9_]` by
`_`, and if the repaired string still fails (leading digit), fall back to
`col_{hash(h) & 0xFFFF}`. -/
def normalizeHeader (pyHash : String → Int) (raw : String) (i : Nat) : String :=
  let h : String := ⟨(stripChars raw.data).map (fun c => if c.toNat == 32 then '_' else c)⟩
  let h : String := if h = "" then "col" ++ natDecimal i else h
  if isIdent h then h
  else
    let safe : String := ⟨h.data.map (fun c => if isIdentChar c then c else '_')⟩
    if isIdent safe then safe
    else "col_" ++ natDecimal ((pyHash h) % 65536).toNat

/-- The header list comprehension plus repair loop of `import_csv`. -/
def normalizeHeaders (pyHash : String → Int) (headers : List String) : List String :=
  headers.mapIdx (fun i h => normalizeHeader pyHash h i)

/-! ### SQL safety classification -/

def SAFE_SQL_PREFIXES : List String := ["SELECT", "PRAGMA", "EXPLAIN"]

def DANGEROUS_SQL_PREFIXES : List String :=
  ["UPDATE", "DELETE", "INSERT", "DROP", "ALTER", "REPLACE", "CREATE TABLE"]

/-- `is_sql_dangerous`: uppercase the stripped statement and test the
dangerous set with `str.startswith`. -/
def is_sql_dangerous (sql : String) : Bool :=
  let sql := pyUpper (pyStrip sql)
  DANGEROUS_SQL_PREFIXES.any (fun p => pyStartsWith sql p)

/-- `is_sql_safe`: uppercase the stripped statement and test the safe set. -/
def is_sql_safe (sql : String) : Bool :=
  let sql := pyUpper (pyStrip sql)
  SAFE_SQL_PREFIXES.any (fun p => pyStartsWith sql p)

inductive SqlClass where
  | Safe
  | Dangerous
  | Disallowed
deriving DecidableEq

/-- The three-way classification as consumed by `cli_query`: statements that
are neither safe nor dangerous are rejected ("Command not allowed"), dangerous
ones take the confirmation path, the rest the read-only path. -/
def classify (sql : String) : SqlClass :=
  if !(is_sql_safe sql || is_sql_dangerous sql) then .Disallowed
  else if is_sql_dangerous sql then .Dangerous
  else .Safe

/-! ### Python numeric literal recognition (`int(v)` / `float(v)` on strings)

`int()` and `float()` accept surrounding whitespace, an optional sign, and
digit groups with single underscores strictly between digits (PEP 515);
`float()` additionally accepts a decimal point, an exponent and the special
words `inf`/`infinity`/`nan`.  Non-ASCII digits are not modelled. -/

/-- Tail of a digit group: digits, with each underscore followed by a digit. -/
def digitGroupTail : List Char → Bool
  | [] => true
  | '_' :: c :: cs => isAsciiDigit c && digitGroupTail cs
  | ['_'] => false
  | c :: cs => isAsciiDigit c && digitGroupTail cs

/-- A nonempty underscore-grouped digit string starting with a digit. -/
def digitGroup : List Char → Bool
  | [] => false
  | c :: cs => isAsciiDigit c && digitGroupTail cs

/-- Split at the first `e`/`E` (exponent marker). -/
def splitExp : List Char → List Char × Option (List Char)
  | [] => ([], none)
  | c :: cs =>
    if c.toNat == 101 || c.toNat == 69 then ([], some cs)
    else
      let (m, e) := splitExp cs
      (c :: m, e)

/-- Split at the first `.`. -/
def splitDot : List Char → List Char × Option (List Char)
  | [] => ([], none)
  | c :: cs =>
    if c.toNat == 46 then ([], some cs)
    else
      let (a, b) := splitDot cs
      (c :: a, b)

/-- Drop one optional leading sign. -/
def dropSign : List Char → List Char
  | '+' :: r => r
  | '-' :: r => r
  | l => l

/-- Whether `int(v)` succeeds on the string with character list `l`
(whitespace already stripped by the caller). -/
def pyIntBody (l : List Char) : Bool := digitGroup (dropSign l)

/-- Whether Python `int(v)` succeeds on string `v`. -/
def isPyInt (v : String) : Bool := pyIntBody (stripChars v.data)

/-- Mantissa of a float literal: `d`, `d.`, `d.d` or `.d`
(with underscore-grouped digit parts). -/
def floatMantissa (m : List Char) : Bool :=
  match splitDot m with
  | (a, none) => digitGroup a
  | (a, some b) =>
    if a = [] then digitGroup b
    else if b = [] then digitGroup a
    else digitGroup a && digitGroup b

/-- Exponent part: optional sign then a digit group. -/
def floatExponent (e : List Char) : Bool := digitGroup (dropSign e)

/-- Whether Python `float(v)` succeeds on string `v`. -/
def isPyFloat (v : String) : Bool :=
  let l := dropSign (stripChars v.data)
  let low := l.map (fun c => if 65 ≤ c.toNat && c.toNat ≤ 90 then Char.ofNat (c.toNat + 32) else c)
  if low = "inf".data || low = "infinity".data || low = "nan".data then true
  else
    match splitExp l with
    | (m, none) => floatMantissa m
    | (m, some e) => floatMantissa m && floatExponent e

/-! ### Type inference (`consistent_types`) -/

inductive SqlType where
  | integer
  | real
  | text
deriving DecidableEq

/-- SQL spelling of a storage type (the strings the Python code carries). -/
def sqlTypeName : SqlType → String
  | .integer => "INTEGER"
  | .real => "REAL"
  | .text => "TEXT"

/-- The loop of `consistent_types` with the running candidate `t` explicit:
empty value returns TEXT at once; `int(v)` success keeps the candidate;
otherwise `float(v)` success promotes INTEGER to REAL; otherwise TEXT. -/
def consistentTypesAux : SqlType → List String → SqlType
  | t, [] => t
  | t, v :: vs =>
    if v = "" then .text
    else if isPyInt v then consistentTypesAux t vs
    else if isPyFloat v then consistentTypesAux (if t = .integer then .real else t) vs
    else .text

/-- `consistent_types`: starts from the INTEGER candidate. -/
def consistent_types (values : List String) : SqlType :=
  consistentTypesAux .integer values

/-! ### SQLite storage values and type affinity

Inserted cells are bound as text parameters; SQLite then applies the target
column's type affinity.  For INTEGER (NUMERIC) affinity, text that is a
well-formed integer literal fitting a signed 64-bit word is stored as an
integer, a well-formed real literal with an exact integral value is stored as
an integer, other well-formed real literals as a real, and anything else as
the text unchanged; REAL affinity stores any well-formed numeric literal as a
real; TEXT affinity stores the text unchanged.  A stored real is represented
by its source literal (`vReal`): IEEE-754 double rounding is outside this
embedding, so literals whose double value is integral only after rounding
(e.g. `2.0000000000000001`) and integers too large for 64 bits are kept as
`vReal` of the literal; no claim below evaluates those corners. -/

inductive Value where
  | vNull
  | vInt (i : Int)
  | vReal (lit : String)
  | vText (s : String)
deriving DecidableEq

/-- SQLite well-formed integer literal: optional sign then ASCII digits
(no underscores, unlike Python's `int()`). -/
def sqliteIsInt (l : List Char) : Bool :=
  let r := dropSign l
  !r.isEmpty && r.all isAsciiDigit

/-- Value of an ASCII digit string. -/
def digitsVal (l : List Char) : Nat :=
  l.foldl (fun a c => a * 10 + (c.toNat - 48)) 0

/-- Value of a well-formed integer literal. -/
def sqliteParseInt (l : List Char) : Int :=
  match l with
  | '-' :: r => -(digitsVal r : Int)
  | '+' :: r => (digitsVal r : Int)
  | _ => (digitsVal l : Int)

/-- Signed 64-bit range check. -/
def fitsI64 (i : Int) : Bool :=
  decide (-(2 ^ 63) ≤ i) && decide (i < 2 ^ 63)

/-- SQLite well-formed real literal: optional sign, digits with an optional
decimal point (`d`, `d.`, `d.d`, `.d`), optional exponent; no underscores,
no `inf`/`nan`. -/
def sqliteIsReal (l : List Char) : Bool :=
  let l := dropSign l
  let (m, e) := splitExp l
  let mOk :=
    match splitDot m with
    | (a, none) => !a.isEmpty && a.all isAsciiDigit
    | (a, some b) => (!a.isEmpty || !b.isEmpty) && a.all isAsciiDigit && b.all isAsciiDigit
  match e with
  | none => mOk
  | some ex =>
    let ex := dropSign ex
    mOk && !ex.isEmpty && ex.all isAsciiDigit

/-- Exact integral value of a well-formed real literal, when its decimal
value is an integer: `±(A.B)·10^E` is integral iff the digits of `B` beyond
position `E` are all zero. -/
def realAsIntegral (l : List Char) : Option Int :=
  let neg := match l with | '-' :: _ => true | _ => false
  let l := dropSign l
  let (m, e) := splitExp l
  let expVal : Int :=
    match e with
    | none => 0
    | some ex =>
      match ex with
      | '-' :: r => -(digitsVal r : Int)
      | '+' :: r => (digitsVal r : Int)
      | _ => (digitsVal ex : Int)
  let (a, b) := match splitDot m with
    | (a, none) => (a, [])
    | (a, some b) => (a, b)
  let digits := a ++ b
  let shift : Int := expVal - (b.length : Int)
  let integral :=
    if 0 ≤ shift then some ((digitsVal digits : Int) * 10 ^ shift.toNat)
    else
      let k := (-shift).toNat
      if k ≤ digits.length && (digits.drop (digits.length - k)).all (fun c => c.toNat == 48)
      then some ((digitsVal (digits.take (digits.length - k)) : Int))
      else if k > digits.length && digits.all (fun c => c.toNat == 48) then some 0
      else none
  integral.map (fun v => if neg then -v else v)

/-- Apply a column's type affinity to a bound (already stripped) text value. -/
def applyAffinity (ty : SqlType) (s : String) : Value :=
  let l := s.data
  match ty with
  | .text => .vText s
  | .integer =>
    if sqliteIsInt l then
      let i := sqliteParseInt l
      if fitsI64 i then .vInt i else .vReal s
    else if sqliteIsReal l then
      match realAsIntegral l with
      | some i => if fitsI64 i then .vInt i else .vReal s
      | none => .vReal s
    else .vText s
  | .real =>
    if sqliteIsInt l || sqliteIsReal l then .vReal s else .vText s

/-- How a fetched value is rendered into the exported CSV: `csv.writer`
writes `None` as an empty field, Python `str` renders integers in decimal;
a real stored from an integer literal prints as `i.0` (exact for
`|i| < 10^16`), and a real stored from a real literal is approximated by its
source text (exact when the literal is already in Python's canonical float
form, e.g. `2.5`; no claim below evaluates other reals). -/
def renderValue : Value → String
  | .vNull => ""
  | .vInt i => intDecimal i
  | .vText s => s
  | .vReal lit =>
    if sqliteIsInt lit.data then intDecimal (sqliteParseInt lit.data) ++ ".0" else lit

/-! ### Database state

`DatabaseManager.connect` opens the SQLite connection with
`isolation_level=None` — autocommit mode — and ensures the `audit_log` table
exists.  The audit table is modelled by the flag `hasAudit` and its
`(event_type, details)` payloads `auditRows` (the autoincrement id and the
`CURRENT_TIMESTAMP` column are real time, outside the embedding); `errLog`
models the `LOG_FILE` the module-level `log_error` appends to. -/

structure TableData where
  cols : List (String × SqlType)
  rows : List (List Value)
  indexes : List String
deriving DecidableEq

structure DBState where
  tables : List (String × TableData)
  hasAudit : Bool
  auditRows : List (String × String)
  errLog : List String
deriving DecidableEq

def lookupTable (db : DBState) (name : String) : Option TableData :=
  (db.tables.find? (fun p => p.1 == name)).map (·.2)

/-- The `SELECT name FROM sqlite_master WHERE type='table' AND name=?` probe
(the audit table is a table too). -/
def tableExistsName (db : DBState) (name : String) : Bool :=
  (lookupTable db name).isSome || (name == "audit_log" && db.hasAudit)

/-- `DatabaseManager.connect` + `_create_audit_table` (idempotent). -/
def connect (db : DBState) : DBState :=
  if db.hasAudit then db else { db with hasAudit := true }

/-- Store (replace or append) a user table. -/
def setTable (db : DBState) (name : String) (t : TableData) : DBState :=
  if (lookupTable db name).isSome then
    { db with tables := db.tables.map (fun p => if p.1 == name then (p.1, t) else p) }
  else
    { db with tables := db.tables ++ [(name, t)] }

/-- `DatabaseManager._log_event`: inserting the audit row may itself raise;
the exception is caught and appended to the error-log file by `log_error`
(the module-level file writer is an excluded I/O shim modelled as always
succeeding), so `_log_event` never propagates.  `auditOk` says whether the
audit INSERT succeeds. -/
def logEvent (auditOk : Bool) (db : DBState) (eventType details : String) : DBState :=
  if auditOk then { db with auditRows := db.auditRows ++ [(eventType, details)] }
  else { db with errLog := db.errLog ++ ["audit insert failed: " ++ eventType] }

/-! ### SQL statement text built by the program

These are the exact f-strings the Python code interpolates identifiers into.
`import_csv` only ever feeds them values coming out of `sanitize_identifier`
or the header-normalization loop; `export_table_to_csv` and `table_info` feed
them the caller's raw `table_name`. -/

def MAX_CSV_SIZE : Nat := 10 * 1024 * 1024

/-- `f"CREATE TABLE IF NOT EXISTS '{tn}' ({create_fragment})"` where
`create_fragment` joins `f"'{col_name}' {sql_type}"`. -/
def createTableSql (tn : String) (cols : List (String × SqlType)) : String :=
  "CREATE TABLE IF NOT EXISTS '" ++ tn ++ "' (" ++
    ", ".intercalate (cols.map (fun c => "'" ++ c.1 ++ "' " ++ sqlTypeName c.2)) ++ ")"

/-- `f"INSERT INTO '{tn}' ({collist}) VALUES ({placeholders})"`. -/
def insertSql (tn : String) (headers : List String) : String :=
  "INSERT INTO '" ++ tn ++ "' (" ++
    ",".intercalate (headers.map (fun c => "'" ++ c ++ "'")) ++ ") VALUES (" ++
    ",".intercalate (List.replicate headers.length "?") ++ ")"

/-- `f"CREATE INDEX IF NOT EXISTS '{idx_name}' ON '{tn}'('{ci}')"`. -/
def createIndexSql (tn ci : String) : String :=
  "CREATE INDEX IF NOT EXISTS 'idx_" ++ tn ++ "_" ++ ci ++ "' ON '" ++ tn ++ "'('" ++ ci ++ "')"

/-- `f"SELECT * FROM '{table_name}'"` — built by `export_table_to_csv` from
its raw argument, with no sanitization. -/
def exportSelectSql (table_name : String) : String :=
  "SELECT * FROM '" ++ table_name ++ "'"

/-- `f"PRAGMA table_info('{table_name}')"` — built by `table_info` from its
raw argument, with no sanitization. -/
def tableInfoSql (table_name : String) : String :=
  "PRAGMA table_info('" ++ table_name ++ "')"

/-! ### The import pipeline (`DatabaseManager.import_csv`)

The CSV file appears as its `csv.reader` row sequence `recs` (the csv module
is an external parser), together with the inputs of the pre-parse checks: the
file's byte size, the `mimetypes.guess_type` result and the path.  The
connection is in autocommit mode (`isolation_level=None`), the program never
issues `BEGIN`, so every statement inside the `with self.conn:` block commits
as it executes and the block's exit commit/rollback are no-ops; the embedding
therefore threads the state through each statement and an error inside the
block keeps all previously executed statements in effect. -/

/-- The file-size ceiling check. -/
def checkSize (size : Nat) : Except PyError Unit :=
  if size > MAX_CSV_SIZE then
    .error (.valueError ("CSV file size " ++ natDecimal size ++
      " bytes exceeds max allowed " ++ natDecimal MAX_CSV_SIZE ++ " bytes"))
  else .ok ()

/-- The media-type check: guessed type `text/csv` or a `.csv` extension. -/
def checkMime (mimeType : Option String) (csvPath : String) : Except PyError Unit :=
  if mimeType ≠ some "text/csv" && !(pyEndsWith (pyLower csvPath) ".csv") then
    .error (.valueError "Invalid file type. Only CSV allowed.")
  else .ok ()

/-- The sampling loop's row-width validation (against the header count). -/
def checkSampleRows (nCols : Nat) : List (List String) → Except PyError Unit
  | [] => .ok ()
  | r :: rs =>
    if r.length ≠ nCols then
      .error (.valueError ("CSV row length mismatch: expected " ++ natDecimal nCols ++
        ", got " ++ natDecimal r.length))
    else checkSampleRows nCols rs

/-- Per-column type inference over the sample window
(`row[col_idx] if col_idx < len(row) else ""`). -/
def inferColumnTypes (headers : List String) (sample : List (List String)) : List SqlType :=
  (List.range headers.length).map
    (fun colIdx => consistent_types (sample.map (fun row => row.getD colIdx "")))

/-- One `cur.execute(insert_sql, cleaned)`: each cell is `str(...).strip()`ed,
bound positionally to the named columns, and the row is stored under the
table's column order with the target column's affinity applied; table columns
not named by the INSERT get NULL.  (Behaviour on duplicate INSERT column
names, or NOT NULL columns of a pre-existing append target, is not modelled;
no claim reaches those corners.) -/
def insertRow (db : DBState) (tn : String) (headers : List String)
    (cells : List String) : Except PyError Unit × DBState :=
  match lookupTable db tn with
  | none => (.error (.operationalError ("no such table: " ++ tn)), db)
  | some t =>
    if !(headers.all (fun h => t.cols.any (fun c => c.1 == h))) then
      (.error (.operationalError "no such column"), db)
    else
      let cleaned := cells.map pyStrip
      let row := t.cols.map (fun c =>
        match headers.indexOf? c.1 with
        | some j => applyAffinity c.2 (cleaned.getD j "")
        | none => Value.vNull)
      (.ok (), setTable db tn { t with rows := t.rows ++ [row] })

/-- The sample-row insertion loop (rows already width-validated). -/
def insertRows (db : DBState) (tn : String) (headers : List String) :
    List (List String) → Except PyError Unit × DBState
  | [] => (.ok (), db)
  | r :: rs =>
    match insertRow db tn headers r with
    | (.ok _, db') => insertRows db' tn headers rs
    | (.error e, db') => (.error e, db')

/-- The streaming loop over the remainder of the file: width check
(`"CSV row length mismatch during import"`) then insert. -/
def streamRows (db : DBState) (tn : String) (headers : List String) :
    List (List String) → Except PyError Unit × DBState
  | [] => (.ok (), db)
  | r :: rs =>
    if r.length ≠ headers.length then
      (.error (.valueError "CSV row length mismatch during import"), db)
    else
      match insertRow db tn headers r with
      | (.ok _, db') => streamRows db' tn headers rs
      | (.error e, db') => (.error e, db')

/-- `CREATE TABLE IF NOT EXISTS`: skipped when the name exists; SQLite
rejects an empty column list and duplicate column names. -/
def createTableIfNotExists (db : DBState) (tn : String)
    (cols : List (String × SqlType)) : Except PyError Unit × DBState :=
  if tableExistsName db tn then (.ok (), db)
  else if cols.isEmpty then (.error (.operationalError "incomplete input"), db)
  else if (cols.map Prod.fst).Nodup then (.ok (), setTable db tn ⟨cols, [], []⟩)
  else (.error (.operationalError "duplicate column name"), db)

/-- The optional index step: sanitize the requested column, then
`CREATE INDEX IF NOT EXISTS 'idx_{tn}_{ci}'` (idempotent; errors if the
column does not exist). -/
def createIndexStep (db : DBState) (tn : String) (createIndexOn : Option String) :
    Except PyError Unit × DBState :=
  match createIndexOn with
  | none => (.ok (), db)
  | some s =>
    match sanitize_identifier s with
    | .error e => (.error e, db)
    | .ok ci =>
      match lookupTable db tn with
      | none => (.error (.operationalError ("no such table: " ++ tn)), db)
      | some t =>
        if !(t.cols.any (fun c => c.1 == ci)) then
          (.error (.operationalError ("no such column: " ++ ci)), db)
        else
          let idxName := "idx_" ++ tn ++ "_" ++ ci
          if t.indexes.contains idxName then (.ok (), db)
          else (.ok (), setTable db tn { t with indexes := t.indexes ++ [idxName] })

/-- `import_csv` up to (but not including) the final `_log_event` call,
following the source line by line: sanitize the table name; size and
media-type checks; read the header row (`"CSV appears empty"` if absent);
normalize headers; read and width-validate up to 20 sample rows; infer column
types; connect; conflict check (`FileExistsError` without `append`); then the
autocommitting `with self.conn:` block: create table, insert the sample rows,
stream and insert the rest, optional index creation. -/
def importCsvCore (db : DBState) (pyHash : String → Int) (csvPath : String)
    (fileSize : Nat) (mimeType : Option String) (recs : List (List String))
    (tableName : String) (append : Bool) (createIndexOn : Option String) :
    Except PyError Unit × DBState :=
  match sanitize_identifier tableName with
  | .error e => (.error e, db)
  | .ok tn =>
  match checkSize fileSize with
  | .error e => (.error e, db)
  | .ok _ =>
  match checkMime mimeType csvPath with
  | .error e => (.error e, db)
  | .ok _ =>
  match recs with
  | [] => (.error (.valueError "CSV appears empty"), db)
  | rawHeaders :: dataRows =>
    let headers := normalizeHeaders pyHash rawHeaders
    let sample := dataRows.take 20
    match checkSampleRows headers.length sample with
    | .error e => (.error e, db)
    | .ok _ =>
      let types := inferColumnTypes headers sample
      let db := connect db
      if tableExistsName db tn && !append then
        (.error (.fileExistsError ("Table " ++ tn ++
          " exists. Use append=True or drop table first.")), db)
      else
        match createTableIfNotExists db tn (headers.zip types) with
        | (.error e, db) => (.error e, db)
        | (.ok _, db) =>
        match insertRows db tn headers sample with
        | (.error e, db) => (.error e, db)
        | (.ok _, db) =>
        match streamRows db tn headers (dataRows.drop 20) with
        | (.error e, db) => (.error e, db)
        | (.ok _, db) =>
        match createIndexStep db tn createIndexOn with
        | (.error e, db) => (.error e, db)
        | (.ok _, db) => (.ok (), db)

/-- `import_csv`: the core followed, on success only, by the audit record
(`_log_event("IMPORT_CSV", ...)`, which never propagates a failure).  The
logged name is the sanitized `tn`, recovered from `sanitize_identifier`
(which succeeded on any path that reaches the log call). -/
def import_csv (auditOk : Bool) (db : DBState) (pyHash : String → Int)
    (csvPath : String) (fileSize : Nat) (mimeType : Option String)
    (recs : List (List String)) (tableName : String) (append : Bool)
    (createIndexOn : Option String) : Except PyError Unit × DBState :=
  match importCsvCore db pyHash csvPath fileSize mimeType recs tableName append createIndexOn with
  | (.ok _, db') =>
    let tn := ((sanitize_identifier tableName).toOption).getD tableName
    (.ok (), logEvent auditOk db' "IMPORT_CSV"
      ("Imported " ++ tn ++ " from " ++ csvPath ++ " (" ++ natDecimal fileSize ++ " bytes)"))
  | (.error e, db') => (.error e, db')

/-! ### Export and schema query -/

/-- `export_table_to_csv` up to the audit record: connect, run
`SELECT * FROM '{table_name}'` on the raw argument, and produce the written
CSV content — the header line (cursor-description column order, which is the
table's column order) followed by one rendered line per row.  The lookup
models execution of `_sql` for names without embedded quotes; the raw
interpolation itself is `exportSelectSql`. -/
def exportTableCore (db : DBState) (table_name : String) :
    Except PyError (List (List String)) × DBState :=
  let db := connect db
  let _sql := exportSelectSql table_name
  match lookupTable db table_name with
  | none => (.error (.operationalError ("no such table: " ++ table_name)), db)
  | some t =>
    (.ok ((t.cols.map Prod.fst) :: t.rows.map (fun r => r.map renderValue)), db)

/-- `export_table_to_csv`: the core followed, on success only, by
`_log_event("EXPORT_CSV", ...)`. -/
def export_table_to_csv (auditOk : Bool) (db : DBState) (table_name filepath : String) :
    Except PyError (List (List String)) × DBState :=
  match exportTableCore db table_name with
  | (.ok out, db') =>
    (.ok out, logEvent auditOk db' "EXPORT_CSV"
      ("Exported table " ++ table_name ++ " to " ++ filepath))
  | (.error e, db') => (.error e, db')

/-- `table_info`: `PRAGMA table_info('{table_name}')` on the raw argument;
returns (position, name, declared type) rows, empty for an unknown table. -/
def table_info (db : DBState) (table_name : String) : List (Nat × String × SqlType) :=
  let db := connect db
  let _sql := tableInfoSql table_name
  match lookupTable db table_name with
  | none => []
  | some t => t.cols.mapIdx (fun i c => (i, c.1, c.2))

/-! ### Helper lemmas -/

lemma digitChar_digit (d : Nat) : isAsciiDigit (digitChar d) = true := by
  unfold digitChar
  split <;> decide

lemma natDecimalAux_digits :
    ∀ (fuel n : Nat) (acc : List Char), (∀ c ∈ acc, isAsciiDigit c = true) →
      ∀ c ∈ natDecimalAux fuel n acc, isAsciiDigit c = true := by
  intro fuel
  induction fuel with
  | zero => intro n acc hacc c hc; exact hacc c hc
  | succ fuel ih =>
    intro n acc hacc c hc
    simp only [natDecimalAux] at hc
    split at hc
    · rcases List.mem_cons.mp hc with rfl | hc
      · exact digitChar_digit n
      · exact hacc c hc
    · refine ih (n / 10) _ ?_ c hc
      intro d hd
      rcases List.mem_cons.mp hd with rfl | hd
      · exact digitChar_digit (n % 10)
      · exact hacc d hd

lemma natDecimal_digits (n : Nat) : ∀ c ∈ (natDecimal n).data, isAsciiDigit c = true :=
  natDecimalAux_digits (n + 1) n [] (by simp)

lemma digit_isIdentChar {c : Char} (h : isAsciiDigit c = true) : isIdentChar c = true := by
  simp [isIdentChar, h]

lemma head_isIdentChar {c : Char} (h : isIdentHead c = true) : isIdentChar c = true := by
  simp only [isIdentHead, Bool.or_eq_true] at h
  rcases h with h | h <;> simp [isIdentChar, h]

lemma identCharsOk_all {l : List Char} (h : identCharsOk l = true) :
    l.all isIdentChar = true := by
  cases l with
  | nil => simp [identCharsOk] at h
  | cons c cs =>
    simp only [identCharsOk, Bool.and_eq_true] at h
    simp [List.all_cons, head_isIdentChar h.1, h.2]

lemma identChar_not_space {c : Char} (h : isIdentChar c = true) : pyIsSpace c = false := by
  simp only [isIdentChar, isAsciiLetter, isAsciiDigit, Bool.or_eq_true, Bool.and_eq_true,
    decide_eq_true_eq, beq_iff_eq] at h
  simp only [pyIsSpace, Bool.or_eq_false_iff, Bool.and_eq_false_iff,
    beq_eq_false_iff_ne, ne_eq, decide_eq_false_iff_not, not_le]
  omega

lemma dropWhile_id_of_no_space {l : List Char} (h : ∀ c ∈ l, pyIsSpace c = false) :
    l.dropWhile pyIsSpace = l := by
  cases l with
  | nil => rfl
  | cons a t => simp [List.dropWhile_cons, h a (List.mem_cons_self a t)]

lemma stripChars_id {l : List Char} (h : ∀ c ∈ l, pyIsSpace c = false) :
    stripChars l = l := by
  unfold stripChars
  rw [dropWhile_id_of_no_space h,
    dropWhile_id_of_no_space (fun c hc => h c (List.mem_reverse.mp hc)), List.reverse_reverse]

lemma pyStrip_of_ident {s : String} (h : isIdent s = true) : pyStrip s = s := by
  have hall := identCharsOk_all h
  rw [List.all_eq_true] at hall
  have : stripChars s.data = s.data :=
    stripChars_id (fun c hc => identChar_not_space (hall c hc))
  simp only [pyStrip, this]

lemma col_append_ident {ds : List Char} (h : ∀ c ∈ ds, isAsciiDigit c = true) :
    identCharsOk (['c', 'o', 'l', '_'] ++ ds) = true := by
  simp only [List.cons_append, List.nil_append, identCharsOk, List.all_cons,
    List.all_append, Bool.and_eq_true, List.all_eq_true]
  refine ⟨by decide, by decide, by decide, by decide, fun c hc => digit_isIdentChar (h c hc)⟩

lemma normalize_branch (X Y : String) (m : Nat) :
    isIdent (if isIdent X = true then X
      else if isIdent Y = true then Y else "col_" ++ natDecimal m) = true := by
  split
  · assumption
  · split
    · assumption
    · simp only [isIdent, String.data_append]
      exact col_append_ident (natDecimal_digits m)

/-- Every output of the header normalizer matches `IDENT_RE`. -/
lemma normalizeHeader_isIdent (pyHash : String → Int) (raw : String) (i : Nat) :
    isIdent (normalizeHeader pyHash raw i) = true := by
  unfold normalizeHeader
  dsimp only
  split
  · exact normalize_branch _ _ _
  · exact normalize_branch _ _ _

lemma is_sql_safe_def (s : String) :
    is_sql_safe s = SAFE_SQL_PREFIXES.any (fun p => pyStartsWith (pyUpper (pyStrip s)) p) := rfl

lemma is_sql_dangerous_def (s : String) :
    is_sql_dangerous s =
      DANGEROUS_SQL_PREFIXES.any (fun p => pyStartsWith (pyUpper (pyStrip s)) p) := rfl

lemma pyStartsWith_sound {s p : String} (h : pyStartsWith s p = true) : p.data <+: s.data :=
  List.isPrefixOf_iff_prefix.mp h

/-- No statement starts with both a safe and a dangerous keyword: the two
keyword sets contain no pair in a prefix relation. -/
lemma safe_dangerous_disjoint (u : String)
    (h1 : SAFE_SQL_PREFIXES.any (fun p => pyStartsWith u p) = true)
    (h2 : DANGEROUS_SQL_PREFIXES.any (fun p => pyStartsWith u p) = true) : False := by
  simp only [SAFE_SQL_PREFIXES, DANGEROUS_SQL_PREFIXES, List.any_cons, List.any_nil,
    Bool.or_eq_true, Bool.or_false] at h1 h2
  rcases h1 with h1 | h1 | h1 <;> rcases h2 with h2 | h2 | h2 | h2 | h2 | h2 | h2 <;>
    (rcases List.prefix_or_prefix_of_prefix (pyStartsWith_sound h1) (pyStartsWith_sound h2)
      with h | h <;> revert h <;> decide)

/-! ### Claim theorems -/

/-- C2.  Classification of a SQL statement depends only on the uppercased,
whitespace-trimmed text: a statement beginning with a member of the safe set
classifies `Safe`, one beginning with a member of the dangerous set
classifies `Dangerous`, and every other statement classifies `Disallowed`
(the two keyword sets are prefix-disjoint, so the outcome is unique); the
spec's five examples classify as stated. -/
theorem classify_by_leading_keyword (s : String) :
    (SAFE_SQL_PREFIXES.any (fun p => pyStartsWith (pyUpper (pyStrip s)) p) = true →
      classify s = .Safe) ∧
    (DANGEROUS_SQL_PREFIXES.any (fun p => pyStartsWith (pyUpper (pyStrip s)) p) = true →
      classify s = .Dangerous) ∧
    (SAFE_SQL_PREFIXES.any (fun p => pyStartsWith (pyUpper (pyStrip s)) p) = false →
      DANGEROUS_SQL_PREFIXES.any (fun p => pyStartsWith (pyUpper (pyStrip s)) p) = false →
      classify s = .Disallowed) ∧
    (∀ t, pyUpper (pyStrip s) = pyUpper (pyStrip t) → classify s = classify t) ∧
    (classify "select * from t" = .Safe ∧ classify "  SELECT 1" = .Safe ∧
     classify "DROP TABLE t" = .Dangerous ∧ classify "insert into t values (1)" = .Dangerous ∧
     classify "ATTACH DATABASE x" = .Disallowed) := by
  refine ⟨?_, ?_, ?_, ?_, by decide, by decide, by decide, by decide, by decide⟩
  · intro h
    have hs : is_sql_safe s = true := by rw [is_sql_safe_def]; exact h
    have hd : is_sql_dangerous s = false := by
      cases hdc : is_sql_dangerous s
      · rfl
      · rw [is_sql_dangerous_def] at hdc
        exact absurd hdc (fun h2 => safe_dangerous_disjoint _ h h2)
    simp [classify, hs, hd]
  · intro h
    have hd : is_sql_dangerous s = true := by rw [is_sql_dangerous_def]; exact h
    simp [classify, hd]
  · intro h1 h2
    have hs : is_sql_safe s = false := by rw [is_sql_safe_def]; exact h1
    have hd : is_sql_dangerous s = false := by rw [is_sql_dangerous_def]; exact h2
    simp [classify, hs, hd]
  · intro t ht
    simp only [classify, is_sql_safe_def, is_sql_dangerous_def, ht]

/-- C2 witness: the theorem instantiated at `"PRAGMA table_list"`. -/
theorem classify_by_leading_keyword_witness : classify "PRAGMA table_list" = .Safe :=
  (classify_by_leading_keyword "PRAGMA table_list").1 (by decide)

/-- C3.  `consistent_types` starts from candidate INTEGER and scans in order:
an empty sample forces TEXT at once; an `int()`-parseable sample keeps the
candidate; a `float()`-but-not-`int()`-parseable sample promotes INTEGER to
REAL and never demotes REAL; anything else forces TEXT at once; exhausting
the samples returns the candidate — together with the spec's five examples. -/
theorem consistent_types_algorithm :
    (consistent_types [] = .integer) ∧
    (∀ t : SqlType, consistentTypesAux t [] = t) ∧
    (∀ (t : SqlType) vs, consistentTypesAux t ("" :: vs) = .text) ∧
    (∀ (t : SqlType) v vs, isPyInt v = true →
      consistentTypesAux t (v :: vs) = consistentTypesAux t vs) ∧
    (∀ v vs, isPyInt v = false → isPyFloat v = true →
      consistentTypesAux .integer (v :: vs) = consistentTypesAux .real vs ∧
      consistentTypesAux .real (v :: vs) = consistentTypesAux .real vs) ∧
    (∀ (t : SqlType) v vs, v ≠ "" → isPyInt v = false → isPyFloat v = false →
      consistentTypesAux t (v :: vs) = .text) ∧
    (consistent_types ["1", "2", "3"] = .integer ∧ consistent_types ["1", "2.5"] = .real ∧
     consistent_types ["1", ""] = .text ∧ consistent_types ["1", "abc"] = .text) := by
  refine ⟨rfl, fun t => rfl, fun t vs => rfl, ?_, ?_, ?_, by decide, by decide, by decide, by decide⟩
  · intro t v vs h
    have hv : v ≠ "" := by
      intro he
      rw [he] at h
      exact absurd h (by decide)
    simp [consistentTypesAux, hv, h]
  · intro v vs h1 h2
    have hv : v ≠ "" := by
      intro he
      rw [he] at h2
      exact absurd h2 (by decide)
    constructor <;> simp [consistentTypesAux, hv, h1, h2]
  · intro t v vs hv h1 h2
    simp [consistentTypesAux, hv, h1, h2]

/-- C3 witness: the int-continuation clause instantiated at `"42"`. -/
theorem consistent_types_algorithm_witness :
    consistentTypesAux .integer ["42", "2.5"] = consistentTypesAux .integer ["2.5"] :=
  consistent_types_algorithm.2.2.2.1 .integer "42" ["2.5"] (by decide)

/-- C5.  For every raw header string and positional index (and any process
string-hash function), `normalizeHeader` totally evaluates — never raises —
 and its result matches the identifier pattern `[A-Za-z_][A-Za-z0-9_]*`. -/
theorem normalize_header_total_and_valid (pyHash : String → Int) (raw : String) (i : Nat) :
    isIdent (normalizeHeader pyHash raw i) = true :=
  normalizeHeader_isIdent pyHash raw i

/-- C6.  The hash fallback is NOT deterministic across processes: for the raw
header `"1!"` (whose repaired form `"1_"` still fails the pattern), the
generated name is `col_{hash & 0xFFFF}` under the process's salted string
hash, so two processes whose hash functions differ on `"1!"` produce
different identifiers for the same raw header. -/
theorem normalize_header_hash_process_divergence :
    normalizeHeader (fun _ => 0) "1!" 0 = "col_0" ∧
    normalizeHeader (fun _ => 1) "1!" 0 = "col_1" ∧
    normalizeHeader (fun _ => 0) "1!" 0 ≠ normalizeHeader (fun _ => 1) "1!" 0 := by
  refine ⟨by decide, by decide, by decide⟩

/-- C7.  `sanitize_identifier` fails (with `ValueError`) exactly when the
whitespace-trimmed input does not match the identifier pattern, and otherwise
returns the trimmed input; on an input already matching the pattern it is the
identity with no error. -/
theorem sanitize_identifier_exact (s : String) :
    (isIdent (pyStrip s) = true → sanitize_identifier s = .ok (pyStrip s)) ∧
    (isIdent (pyStrip s) = false →
      sanitize_identifier s = .error (.valueError (invalidIdentMsg (pyStrip s)))) ∧
    (isIdent s = true → sanitize_identifier s = .ok s) := by
  refine ⟨fun h => by simp [sanitize_identifier, h], fun h => by simp [sanitize_identifier, h], ?_⟩
  intro h
  simp [sanitize_identifier, pyStrip_of_ident h, h]

/-- C7 witness: the identity clause at `"abc_1"`. -/
theorem sanitize_identifier_exact_witness : sanitize_identifier "abc_1" = .ok "abc_1" :=
  (sanitize_identifier_exact "abc_1").2.2 (by decide)

/-- C4 counterexample.  `export_table_to_csv` and `table_info` interpolate
their caller-supplied `table_name` into statement text verbatim: for the
input `"x; DROP TABLE t"`, which the sanitizer rejects, the statements built
by the two operations embed the raw string unsanitized. -/
theorem export_and_table_info_unsanitized :
    sanitize_identifier "x; DROP TABLE t" =
      .error (.valueError (invalidIdentMsg "x; DROP TABLE t")) ∧
    isIdent "x; DROP TABLE t" = false ∧
    exportSelectSql "x; DROP TABLE t" = "SELECT * FROM 'x; DROP TABLE t'" ∧
    tableInfoSql "x; DROP TABLE t" = "PRAGMA table_info('x; DROP TABLE t')" := by
  refine ⟨rfl, by decide, by decide, by decide⟩

/-- C4 (amended).  Inside `import_csv` every interpolated identifier has
passed a validating gate: anything `sanitize_identifier` returns matches the
identifier pattern (the target table and the index column), every normalized
header matches the pattern, and the index name composed from two
pattern-matching identifiers matches the pattern; `export_table_to_csv` and
`table_info`, by contrast, interpolate the raw caller string (previous
theorem). -/
theorem import_csv_identifiers_sanitized :
    (∀ raw tn, sanitize_identifier raw = .ok tn → isIdent tn = true) ∧
    (∀ (pyHash : String → Int) (raw : String) (i : Nat),
      isIdent (normalizeHeader pyHash raw i) = true) ∧
    (∀ tn ci, isIdent tn = true → isIdent ci = true →
      isIdent ("idx_" ++ tn ++ "_" ++ ci) = true) := by
  refine ⟨?_, normalizeHeader_isIdent, ?_⟩
  · intro raw tn h
    by_cases hs : isIdent (pyStrip raw) = true
    · simp only [sanitize_identifier, hs, if_true] at h
      cases h
      exact hs
    · simp only [sanitize_identifier, Bool.not_eq_true] at h
      rw [if_neg (by simp [Bool.not_eq_true] at hs ⊢; exact hs)] at h
      cases h
  · intro tn ci h1 h2
    have e : ("idx_" ++ tn ++ "_" ++ ci).data =
        'i' :: 'd' :: 'x' :: '_' :: (tn.data ++ '_' :: ci.data) := by
      simp [String.data_append, List.append_assoc]
    have h1' := List.all_eq_true.mp (identCharsOk_all h1)
    have h2' := List.all_eq_true.mp (identCharsOk_all h2)
    rw [isIdent, e]
    simp only [identCharsOk, List.all_cons, List.all_append, Bool.and_eq_true, List.all_eq_true]
    exact ⟨by decide, by decide, by decide, by decide, h1', by decide, h2'⟩

lemma checkSize_ok {n : Nat} (h : n ≤ MAX_CSV_SIZE) : checkSize n = .ok () := by
  simp only [checkSize]
  rw [if_neg (by omega)]

lemma checkMime_csv (p : String) : checkMime (some "text/csv") p = .ok () := by
  simp [checkMime]

lemma checkSampleRows_ok {n : Nat} :
    ∀ {rs : List (List String)}, (∀ r ∈ rs, r.length = n) → checkSampleRows n rs = .ok ()
  | [], _ => rfl
  | r :: rs, h => by
    have hr : r.length = n := h r (List.mem_cons_self r rs)
    rw [checkSampleRows, if_neg (by simp [hr])]
    exact checkSampleRows_ok (fun r hr => h r (List.mem_cons_of_mem _ hr))

lemma normalizeHeaders_length (ph : String → Int) (hs : List String) :
    (normalizeHeaders ph hs).length = hs.length := by
  simp [normalizeHeaders]

lemma connect_hasAudit {db : DBState} (h : db.hasAudit = true) : connect db = db := by
  simp [connect, h]

/-- C9.  Importing into an existing table without `append` fails with
`FileExistsError` (the spec's ConflictError / TableAlreadyExists) and leaves
the database state — in particular the existing table and its row count —
exactly unchanged, for any import whose earlier validations (name, size,
media type, sample widths) pass and whose manager is connected (`audit_log`
present). -/
theorem import_conflict_error_no_mutation
    (db : DBState) (pyHash : String → Int) (csvPath : String) (fileSize : Nat)
    (mimeType : Option String) (rawHeaders : List String) (dataRows : List (List String))
    (tableName tn : String) (createIndexOn : Option String) (auditOk : Bool)
    (hsan : sanitize_identifier tableName = .ok tn)
    (hsz : fileSize ≤ MAX_CSV_SIZE)
    (hmime : mimeType = some "text/csv")
    (hsample : ∀ r ∈ dataRows.take 20, r.length = rawHeaders.length)
    (haudit : db.hasAudit = true)
    (hexists : tableExistsName db tn = true) :
    import_csv auditOk db pyHash csvPath fileSize mimeType (rawHeaders :: dataRows)
        tableName false createIndexOn =
      (.error (.fileExistsError ("Table " ++ tn ++
        " exists. Use append=True or drop table first.")), db) := by
  subst hmime
  have hs2 : checkSampleRows (normalizeHeaders pyHash rawHeaders).length (dataRows.take 20) =
      .ok () := checkSampleRows_ok (by rw [normalizeHeaders_length]; exact hsample)
  have hcore : importCsvCore db pyHash csvPath fileSize (some "text/csv")
      (rawHeaders :: dataRows) tableName false createIndexOn =
      (.error (.fileExistsError ("Table " ++ tn ++
        " exists. Use append=True or drop table first.")), db) := by
    simp only [importCsvCore, hsan, checkSize_ok hsz, checkMime_csv, hs2,
      connect_hasAudit haudit, hexists, Bool.not_false, Bool.and_true, if_true]
  simp [import_csv, hcore]

/-- C9 witness: a one-column CSV against a database already holding table
`t` with one row. -/
theorem import_conflict_error_no_mutation_witness :
    import_csv true ⟨[("t", ⟨[("a", .text)], [[.vText "v"]], []⟩)], true, [], []⟩
        (fun _ => 0) "f.csv" 100 (some "text/csv") [["a"], ["1"]] "t" false none =
      (.error (.fileExistsError ("Table " ++ "t" ++
        " exists. Use append=True or drop table first.")),
       ⟨[("t", ⟨[("a", .text)], [[.vText "v"]], []⟩)], true, [], []⟩) :=
  import_conflict_error_no_mutation _ _ _ _ _ ["a"] [["1"]] "t" "t" none true
    rfl (by decide) rfl (by decide) rfl (by decide)

/-- C1 (bug evaluation).  The connection runs in autocommit mode
(`isolation_level=None`, no `BEGIN` is ever issued), so the commit/rollback
of the `with self.conn:` block are no-ops: a width error hit in the streaming
phase — here the 21st data row, the first beyond the 20-row sample window —
aborts the import, yet the created table together with the 20 already
inserted sample rows remains committed in the database, instead of the full
rollback the specification promises. -/
theorem import_stream_error_no_rollback :
    import_csv true ⟨[], false, [], []⟩ (fun _ => 0) "f.csv" 100 (some "text/csv")
        (["a", "b"] :: (List.replicate 20 ["x", "y"] ++ [["z"]])) "t" false none =
      (.error (.valueError "CSV row length mismatch during import"),
       ⟨[("t", ⟨[("a", .text), ("b", .text)],
           List.replicate 20 [.vText "x", .vText "y"], []⟩)], true, [], []⟩) := by
  rfl

/-- C10.  If inserting the audit record fails after an otherwise completed
operation (import or export), the exception is caught and appended to the error-log file
instead of propagating: the operation still returns success, the stored
tables are identical to the run whose audit insert succeeds, and only the
error log grows. -/
theorem audit_failure_caught_and_logged :
    (∀ (db : DBState) (pyHash : String → Int) (csvPath : String) (fileSize : Nat)
        (mimeType : Option String) (recs : List (List String)) (tableName : String)
        (append : Bool) (createIndexOn : Option String) (db' : DBState),
      importCsvCore db pyHash csvPath fileSize mimeType recs tableName append
          createIndexOn = (.ok (), db') →
        (import_csv false db pyHash csvPath fileSize mimeType recs tableName append
            createIndexOn).fst = .ok () ∧
        (import_csv false db pyHash csvPath fileSize mimeType recs tableName append
            createIndexOn).snd.tables =
          (import_csv true db pyHash csvPath fileSize mimeType recs tableName append
            createIndexOn).snd.tables ∧
        (import_csv false db pyHash csvPath fileSize mimeType recs tableName append
            createIndexOn).snd.errLog =
          db'.errLog ++ ["audit insert failed: IMPORT_CSV"]) ∧
    (∀ (db : DBState) (table_name filepath : String) (out : List (List String))
        (db' : DBState),
      exportTableCore db table_name = (.ok out, db') →
        (export_table_to_csv false db table_name filepath).fst = .ok out ∧
        (export_table_to_csv false db table_name filepath).snd.tables =
          (export_table_to_csv true db table_name filepath).snd.tables ∧
        (export_table_to_csv false db table_name filepath).snd.errLog =
          db'.errLog ++ ["audit insert failed: EXPORT_CSV"]) := by
  constructor
  · intro db pyHash csvPath fileSize mimeType recs tableName append createIndexOn db' h
    refine ⟨?_, ?_, ?_⟩ <;> simp [import_csv, h, logEvent]
  · intro db table_name filepath out db' h
    refine ⟨?_, ?_, ?_⟩ <;> simp [export_table_to_csv, h, logEvent]

/-- C10 witness: a one-row import whose audit insert fails still succeeds and
writes the error log. -/
theorem audit_failure_caught_and_logged_witness :
    (import_csv false ⟨[], false, [], []⟩ (fun _ => 0) "f.csv" 100 (some "text/csv")
        [["a"], ["1"]] "t" false none).fst = .ok () ∧
    (import_csv false ⟨[], false, [], []⟩ (fun _ => 0) "f.csv" 100 (some "text/csv")
        [["a"], ["1"]] "t" false none).snd.tables =
      (import_csv true ⟨[], false, [], []⟩ (fun _ => 0) "f.csv" 100 (some "text/csv")
        [["a"], ["1"]] "t" false none).snd.tables ∧
    (import_csv false ⟨[], false, [], []⟩ (fun _ => 0) "f.csv" 100 (some "text/csv")
        [["a"], ["1"]] "t" false none).snd.errLog =
      ["audit insert failed: IMPORT_CSV"] :=
  audit_failure_caught_and_logged.1 ⟨[], false, [], []⟩ (fun _ => 0) "f.csv" 100
    (some "text/csv") [["a"], ["1"]] "t" false none
    ⟨[("t", ⟨[("a", .integer)], [[.vInt 1]], []⟩)], true, [], []⟩ rfl

/-! ### Round-trip helper lemmas -/

lemma identChar_ne32 {c : Char} (h : isIdentChar c = true) : (c.toNat == 32) = false := by
  simp only [isIdentChar, isAsciiLetter, isAsciiDigit, Bool.or_eq_true, Bool.and_eq_true,
    decide_eq_true_eq, beq_iff_eq] at h
  simp only [beq_eq_false_iff_ne, ne_eq]
  omega

lemma map_space_id {l : List Char} (h : ∀ c ∈ l, isIdentChar c = true) :
    l.map (fun c => if c.toNat == 32 then '_' else c) = l := by
  have : ∀ c ∈ l, (fun c => if c.toNat == 32 then '_' else c) c = id c := by
    intro c hc
    simp [identChar_ne32 (h c hc)]
  rw [List.map_congr_left this, List.map_id]

/-- A raw header whose stripped form already matches the pattern is
normalized to exactly its stripped form. -/
lemma normalizeHeader_valid_id {raw : String} (h : isIdent (pyStrip raw) = true)
    (ph : String → Int) (i : Nat) : normalizeHeader ph raw i = pyStrip raw := by
  have hall := List.all_eq_true.mp (identCharsOk_all h)
  have e1 : (⟨(stripChars raw.data).map (fun c => if c.toNat == 32 then '_' else c)⟩ : String) =
      pyStrip raw := by
    exact congrArg String.mk (map_space_id (fun c hc => hall c hc))
  have hne : ¬(pyStrip raw = "") := by
    intro he
    rw [he] at h
    exact absurd h (by decide)
  unfold normalizeHeader
  dsimp only
  rw [e1, if_neg hne, if_pos h]

lemma mapIdx_eq_map_of {t : List String} {f : Nat → String → String}
    (hf : ∀ i x, x ∈ t → f i x = pyStrip x) : t.mapIdx f = t.map pyStrip := by
  induction t generalizing f with
  | nil => rfl
  | cons a t ih =>
    rw [List.mapIdx_cons, List.map_cons, hf 0 a (List.mem_cons_self a t)]
    exact congrArg _ (ih (fun i x hx => hf (i + 1) x (List.mem_cons_of_mem a hx)))

/-- When every raw header strips to a valid identifier, normalization is
exactly per-cell stripping. -/
lemma normalizeHeaders_valid (ph : String → Int) {hs : List String}
    (h : ∀ x ∈ hs, isIdent (pyStrip x) = true) :
    normalizeHeaders ph hs = hs.map pyStrip :=
  mapIdx_eq_map_of (fun i x hx => normalizeHeader_valid_id (h x hx) ph i)

lemma lookupTable_eq_none_find {db : DBState} {tn : String}
    (h : lookupTable db tn = none) :
    db.tables.find? (fun p => p.1 == tn) = none := by
  unfold lookupTable at h
  exact Option.map_eq_none'.mp h

lemma lookup_append_none {db0 : DBState} {tn : String} (h : lookupTable db0 tn = none)
    (t : TableData) :
    lookupTable { db0 with tables := db0.tables ++ [(tn, t)] } tn = some t := by
  unfold lookupTable
  simp [List.find?_append, lookupTable_eq_none_find h]

lemma setTable_append_none {db0 : DBState} {tn : String} (h : lookupTable db0 tn = none)
    (t t' : TableData) :
    setTable { db0 with tables := db0.tables ++ [(tn, t)] } tn t' =
      { db0 with tables := db0.tables ++ [(tn, t')] } := by
  have hfind := lookupTable_eq_none_find h
  have hnomatch := List.find?_eq_none.mp hfind
  unfold setTable
  rw [if_pos (by rw [lookup_append_none h]; rfl)]
  simp only [List.map_append]
  congr 1
  congr 1
  · have hid : (db0.tables.map fun p => if (p.1 == tn) = true then (p.1, t') else p) =
        db0.tables.map id :=
      List.map_congr_left (fun p hp => by simp [hnomatch p hp])
    rw [hid, List.map_id]
  · simp

lemma findIdx?_self_acc {l : List String} (hnd : l.Nodup) :
    ∀ {j : Nat} (hj : j < l.length) (i : Nat),
      List.findIdx? (fun x => x == l[j]) l i = some (i + j) := by
  induction l with
  | nil => intro j hj _; simp at hj
  | cons a t ih =>
    intro j hj i
    cases j with
    | zero => simp [List.findIdx?_cons]
    | succ j =>
      have hbits := List.nodup_cons.mp hnd
      have hj' : j < t.length := by simpa using hj
      have hne : ¬(a = t[j]) := fun he => hbits.1 (by rw [he]; exact List.getElem_mem hj')
      rw [List.findIdx?_cons, if_neg (by simp [hne])]
      have hrw : (a :: t)[j + 1] = t[j] := List.getElem_cons_succ a t j hj
      rw [hrw]
      rw [ih hbits.2 hj' (i + 1)]
      congr 1
      omega

lemma indexOf?_getElem {l : List String} (hnd : l.Nodup) {j : Nat} (hj : j < l.length) :
    l.indexOf? l[j] = some j := by
  have := findIdx?_self_acc hnd hj 0
  simpa [List.indexOf?] using this

/-- Name-directed INSERT binding against a table whose columns are exactly the
(nodup) INSERT columns, in order: the stored row applies each column's
affinity to the corresponding stripped cell. -/
lemma buildRow_eq {cols : List (String × SqlType)} {headers : List String}
    {cells : List String} (hcols : cols.map Prod.fst = headers) (hnd : headers.Nodup)
    (hlen : cells.length = headers.length) :
    (cols.map (fun c =>
      match headers.indexOf? c.1 with
      | some j => applyAffinity c.2 ((cells.map pyStrip).getD j "")
      | none => Value.vNull)) =
    List.zipWith (fun (c : String × SqlType) cell => applyAffinity c.2 (pyStrip cell))
      cols cells := by
  subst hcols
  simp only [List.length_map] at hlen
  apply List.ext_getElem
  · simp only [List.length_map, List.length_zipWith]
    omega
  · intro j h1 h2
    have hjc : j < cells.length := by
      simp only [List.length_map] at h1
      omega
    have hjh : j < (cols.map Prod.fst).length := by
      simp only [List.length_map] at h1 ⊢
      omega
    rw [List.getElem_map, List.getElem_zipWith]
    have hname : cols[j].1 = (cols.map Prod.fst)[j] := (List.getElem_map _).symm
    rw [hname, indexOf?_getElem hnd hjh]
    dsimp only
    rw [List.getD_eq_getElem _ _ (by simp only [List.length_map]; omega), List.getElem_map]

lemma colsAll_of_map_fst {cols : List (String × SqlType)} {headers : List String}
    (hcols : cols.map Prod.fst = headers) :
    headers.all (fun h => cols.any (fun c => c.1 == h)) = true := by
  rw [List.all_eq_true]
  intro x hx
  rw [← hcols] at hx
  obtain ⟨c, hc, rfl⟩ := List.mem_map.mp hx
  rw [List.any_eq_true]
  exact ⟨c, hc, by simp⟩

/-- One insert into the freshly created table appends the affinity-converted
row. -/
lemma insertRow_append {db0 : DBState} {tn : String} {headers : List String}
    {cols : List (String × SqlType)}
    (h0 : lookupTable db0 tn = none) (hcols : cols.map Prod.fst = headers)
    (hnd : headers.Nodup) (r : List String) (hr : r.length = headers.length)
    (acc : List (List Value)) (idx : List String) :
    insertRow { db0 with tables := db0.tables ++ [(tn, ⟨cols, acc, idx⟩)] } tn headers r =
      (.ok (), { db0 with tables := db0.tables ++ [(tn, ⟨cols,
        acc ++ [List.zipWith
          (fun (c : String × SqlType) cell => applyAffinity c.2 (pyStrip cell)) cols r],
        idx⟩)] }) := by
  unfold insertRow
  rw [lookup_append_none h0]
  dsimp only
  rw [colsAll_of_map_fst hcols]
  simp only [Bool.not_true, Bool.false_eq_true, if_false]
  rw [buildRow_eq hcols hnd hr, setTable_append_none h0]

/-- Inserting a width-checked batch of rows into the freshly created table:
every insert succeeds and the rows accumulate in order. -/
lemma insertRows_append {db0 : DBState} {tn : String} {headers : List String}
    {cols : List (String × SqlType)}
    (h0 : lookupTable db0 tn = none) (hcols : cols.map Prod.fst = headers)
    (hnd : headers.Nodup) :
    ∀ (rows : List (List String)) (acc : List (List Value)) (idx : List String),
      (∀ r ∈ rows, r.length = headers.length) →
      insertRows { db0 with tables := db0.tables ++ [(tn, ⟨cols, acc, idx⟩)] } tn headers rows =
        (.ok (), { db0 with tables := db0.tables ++ [(tn, ⟨cols,
          acc ++ rows.map (fun r => List.zipWith
            (fun (c : String × SqlType) cell => applyAffinity c.2 (pyStrip cell)) cols r),
          idx⟩)] }) := by
  intro rows
  induction rows with
  | nil => intro acc idx _; simp [insertRows]
  | cons r rs ih =>
    intro acc idx hlen
    rw [insertRows,
      insertRow_append h0 hcols hnd r (hlen r (List.mem_cons_self r rs)) acc idx]
    dsimp only
    rw [ih (acc ++ [List.zipWith (fun (c : String × SqlType) cell =>
      applyAffinity c.2 (pyStrip cell)) cols r]) idx
      (fun x hx => hlen x (List.mem_cons_of_mem r hx))]
    simp [List.map_cons, List.append_assoc]

/-- The streaming loop on width-correct rows behaves like `insertRows`. -/
lemma streamRows_append {db0 : DBState} {tn : String} {headers : List String}
    {cols : List (String × SqlType)}
    (h0 : lookupTable db0 tn = none) (hcols : cols.map Prod.fst = headers)
    (hnd : headers.Nodup) :
    ∀ (rows : List (List String)) (acc : List (List Value)) (idx : List String),
      (∀ r ∈ rows, r.length = headers.length) →
      streamRows { db0 with tables := db0.tables ++ [(tn, ⟨cols, acc, idx⟩)] } tn headers rows =
        (.ok (), { db0 with tables := db0.tables ++ [(tn, ⟨cols,
          acc ++ rows.map (fun r => List.zipWith
            (fun (c : String × SqlType) cell => applyAffinity c.2 (pyStrip cell)) cols r),
          idx⟩)] }) := by
  intro rows
  induction rows with
  | nil => intro acc idx _; simp [streamRows]
  | cons r rs ih =>
    intro acc idx hlen
    rw [streamRows, if_neg (by simp [hlen r (List.mem_cons_self r rs)])]
    rw [insertRow_append h0 hcols hnd r (hlen r (List.mem_cons_self r rs)) acc idx]
    dsimp only
    rw [ih (acc ++ [List.zipWith (fun (c : String × SqlType) cell =>
      applyAffinity c.2 (pyStrip cell)) cols r]) idx
      (fun x hx => hlen x (List.mem_cons_of_mem r hx))]
    simp [List.map_cons, List.append_assoc]

lemma inferColumnTypes_length (hs : List String) (sample : List (List String)) :
    (inferColumnTypes hs sample).length = hs.length := by
  simp [inferColumnTypes]

lemma setTable_of_none {db : DBState} {tn : String} (h : lookupTable db tn = none)
    (t : TableData) :
    setTable db tn t = { db with tables := db.tables ++ [(tn, t)] } := by
  simp [setTable, h]

lemma connect_hasAudit_true (db : DBState) : (connect db).hasAudit = true := by
  unfold connect
  split
  · assumption
  · rfl

lemma logEvent_tables (b : Bool) (db : DBState) (et d : String) :
    (logEvent b db et d).tables = db.tables := by
  unfold logEvent
  split <;> rfl

lemma logEvent_hasAudit (b : Bool) (db : DBState) (et d : String) :
    (logEvent b db et d).hasAudit = db.hasAudit := by
  unfold logEvent
  split <;> rfl

lemma lookupTable_tables_congr {db1 db2 : DBState} (h : db1.tables = db2.tables)
    (tn : String) : lookupTable db1 tn = lookupTable db2 tn := by
  unfold lookupTable
  rw [h]

lemma zipWith_snd_zip {α β γ δ : Type} (f : β → γ → δ) (l1 : List α) (l2 : List β)
    (r : List γ) (h : l1.length = l2.length) :
    List.zipWith (fun (c : α × β) cell => f c.2 cell) (l1.zip l2) r =
      List.zipWith f l2 r := by
  apply List.ext_getElem
  · rw [List.length_zipWith, List.length_zipWith, List.length_zip, ← h, Nat.min_self]
  · intro j h1 h2
    rw [List.getElem_zipWith, List.getElem_zipWith, List.getElem_zip]

lemma exportTableCore_of_lookup {db : DBState} {tn : String} {t : TableData}
    (hA : db.hasAudit = true) (hl : lookupTable db tn = some t) :
    exportTableCore db tn =
      (.ok ((t.cols.map Prod.fst) :: t.rows.map (fun r => r.map renderValue)), db) := by
  unfold exportTableCore
  rw [connect_hasAudit hA]
  dsimp only
  rw [hl]

lemma export_fst_of_lookup {db : DBState} {tn : String} {t : TableData}
    (auditOk2 : Bool) (fp : String)
    (hA : db.hasAudit = true) (hl : lookupTable db tn = some t) :
    (export_table_to_csv auditOk2 db tn fp).fst =
      .ok ((t.cols.map Prod.fst) :: t.rows.map (fun r => r.map renderValue)) := by
  unfold export_table_to_csv
  rw [exportTableCore_of_lookup hA hl]

/-- C8 (amended).  Importing a well-formed CSV — nonempty valid distinct
headers, uniform row width, passing size/type checks, into a fresh table —
and then exporting that table reproduces the header set exactly (as trimmed)
and reproduces every cell as its trimmed value transformed by the storage
engine's type-affinity canonicalization for the column's inferred type; cells
of TEXT-affinity columns are reproduced exactly as trimmed. -/
theorem import_export_roundtrip
    (db : DBState) (pyHash : String → Int) (csvPath expPath : String) (fileSize : Nat)
    (mimeType : Option String) (rawHeaders : List String) (dataRows : List (List String))
    (tableName tn : String) (auditOk auditOk2 : Bool)
    (hsan : sanitize_identifier tableName = .ok tn)
    (hsz : fileSize ≤ MAX_CSV_SIZE)
    (hmime : mimeType = some "text/csv")
    (hne : rawHeaders ≠ [])
    (hheads : ∀ x ∈ rawHeaders, isIdent (pyStrip x) = true)
    (hnd : (rawHeaders.map pyStrip).Nodup)
    (hlen : ∀ r ∈ dataRows, r.length = rawHeaders.length)
    (hfresh : tableExistsName (connect db) tn = false) :
    (import_csv auditOk db pyHash csvPath fileSize mimeType (rawHeaders :: dataRows)
        tableName false none).fst = .ok () ∧
    (export_table_to_csv auditOk2
        (import_csv auditOk db pyHash csvPath fileSize mimeType (rawHeaders :: dataRows)
          tableName false none).snd tn expPath).fst =
      .ok ((rawHeaders.map pyStrip) ::
        dataRows.map (fun r => List.zipWith
          (fun ty cell => renderValue (applyAffinity ty (pyStrip cell)))
          (inferColumnTypes (rawHeaders.map pyStrip) (dataRows.take 20)) r)) ∧
    (∀ cell, renderValue (applyAffinity .text (pyStrip cell)) = pyStrip cell) := by
  subst hmime
  set hd := rawHeaders.map pyStrip with hhd
  set ts := inferColumnTypes hd (dataRows.take 20) with hts
  have hlenhd : hd.length = rawHeaders.length := by rw [hhd, List.length_map]
  have hlents : ts.length = hd.length := by rw [hts]; exact inferColumnTypes_length _ _
  have hnorm : normalizeHeaders pyHash rawHeaders = hd := normalizeHeaders_valid pyHash hheads
  have hsample : checkSampleRows hd.length (dataRows.take 20) = .ok () :=
    checkSampleRows_ok (fun r hr => by
      rw [hlenhd]
      exact hlen r (List.take_subset _ _ hr))
  have h0 : lookupTable (connect db) tn = none := by
    have h1 := (Bool.or_eq_false_iff.mp hfresh).1
    exact Option.not_isSome_iff_eq_none.mp (by rw [h1]; simp)
  have hcolsfst : ((hd.zip ts)).map Prod.fst = hd :=
    List.map_fst_zip _ _ (le_of_eq hlents.symm)
  have hdne : hd ≠ [] := by
    rw [hhd]
    intro hc
    exact hne (List.map_eq_nil_iff.mp hc)
  have hcreate : createTableIfNotExists (connect db) tn (hd.zip ts) =
      (.ok (), { connect db with
        tables := (connect db).tables ++ [(tn, ⟨hd.zip ts, [], []⟩)] }) := by
    have hcne : (hd.zip ts).isEmpty = false := by
      have hz : hd.zip ts ≠ [] := by
        intro hc
        rw [hc] at hcolsfst
        exact hdne hcolsfst.symm
      simpa using hz
    unfold createTableIfNotExists
    rw [if_neg (by rw [hfresh]; simp), if_neg (by rw [hcne]; simp),
      if_pos (by rw [hcolsfst]; exact hnd), setTable_of_none h0]
  have hins := insertRows_append h0 hcolsfst hnd (dataRows.take 20) [] []
    (fun r hr => by rw [hlenhd]; exact hlen r (List.take_subset _ _ hr))
  have hstream := streamRows_append h0 hcolsfst hnd (dataRows.drop 20)
    ([] ++ (dataRows.take 20).map (fun r => List.zipWith
      (fun (c : String × SqlType) cell => applyAffinity c.2 (pyStrip cell)) (hd.zip ts) r)) []
    (fun r hr => by rw [hlenhd]; exact hlen r (List.drop_subset _ _ hr))
  have hcore : importCsvCore db pyHash csvPath fileSize (some "text/csv")
      (rawHeaders :: dataRows) tableName false none =
      (.ok (), { connect db with tables := (connect db).tables ++ [(tn, ⟨hd.zip ts,
        dataRows.map (fun r => List.zipWith (fun (c : String × SqlType) cell =>
          applyAffinity c.2 (pyStrip cell)) (hd.zip ts) r), []⟩)] }) := by
    unfold importCsvCore
    rw [hsan]
    dsimp only
    rw [checkSize_ok hsz]
    dsimp only
    rw [checkMime_csv]
    dsimp only
    rw [hnorm, hsample]
    dsimp only
    rw [← hts]
    rw [if_neg (by rw [hfresh]; simp)]
    rw [hcreate]
    dsimp only
    rw [hins]
    dsimp only
    rw [hstream]
    dsimp only
    unfold createIndexStep
    dsimp only
    rw [List.nil_append, ← List.map_append, List.take_append_drop]
  have hfin : import_csv auditOk db pyHash csvPath fileSize (some "text/csv")
      (rawHeaders :: dataRows) tableName false none =
      (.ok (), logEvent auditOk { connect db with
          tables := (connect db).tables ++ [(tn, ⟨hd.zip ts,
            dataRows.map (fun r => List.zipWith (fun (c : String × SqlType) cell =>
              applyAffinity c.2 (pyStrip cell)) (hd.zip ts) r), []⟩)] }
        "IMPORT_CSV" ("Imported " ++ ((sanitize_identifier tableName).toOption.getD tableName)
          ++ " from " ++ csvPath ++ " (" ++ natDecimal fileSize ++ " bytes)")) := by
    unfold import_csv
    rw [hcore]
  refine ⟨by rw [hfin], ?_, fun cell => rfl⟩
  rw [hfin]
  dsimp only
  have hAud : (logEvent auditOk { connect db with
      tables := (connect db).tables ++ [(tn, ⟨hd.zip ts,
        dataRows.map (fun r => List.zipWith (fun (c : String × SqlType) cell =>
          applyAffinity c.2 (pyStrip cell)) (hd.zip ts) r), []⟩)] }
      "IMPORT_CSV" ("Imported " ++ ((sanitize_identifier tableName).toOption.getD tableName)
        ++ " from " ++ csvPath ++ " (" ++ natDecimal fileSize ++ " bytes)")).hasAudit = true := by
    rw [logEvent_hasAudit]
    exact connect_hasAudit_true db
  have hlook : lookupTable (logEvent auditOk { connect db with
      tables := (connect db).tables ++ [(tn, ⟨hd.zip ts,
        dataRows.map (fun r => List.zipWith (fun (c : String × SqlType) cell =>
          applyAffinity c.2 (pyStrip cell)) (hd.zip ts) r), []⟩)] }
      "IMPORT_CSV" ("Imported " ++ ((sanitize_identifier tableName).toOption.getD tableName)
        ++ " from " ++ csvPath ++ " (" ++ natDecimal fileSize ++ " bytes)")) tn =
      some ⟨hd.zip ts,
        dataRows.map (fun r => List.zipWith (fun (c : String × SqlType) cell =>
          applyAffinity c.2 (pyStrip cell)) (hd.zip ts) r), []⟩ := by
    unfold lookupTable
    rw [logEvent_tables]
    simp [List.find?_append, lookupTable_eq_none_find h0]
  refine (export_fst_of_lookup auditOk2 expPath hAud hlook).trans ?_
  rw [hcolsfst, List.map_map]
  congr 2
  apply List.map_congr_left
  intro r hr
  dsimp only [Function.comp]
  rw [List.map_zipWith]
  exact zipWith_snd_zip (fun ty cell => renderValue (applyAffinity ty (pyStrip cell)))
    hd ts r hlents.symm

/-- C8 witness: importing `a,b / 1, x ` and exporting reproduces the headers
and the trimmed cells (`"1"` is a canonical integer, `" x "` trims to `"x"`
in a TEXT column). -/
theorem import_export_roundtrip_witness :
    (import_csv true ⟨[], false, [], []⟩ (fun _ => 0) "f.csv" 100 (some "text/csv")
        [["a", "b"], ["1", " x "]] "t" false none).fst = .ok () ∧
    (export_table_to_csv true (import_csv true ⟨[], false, [], []⟩ (fun _ => 0) "f.csv" 100
        (some "text/csv") [["a", "b"], ["1", " x "]] "t" false none).snd "t" "o.csv").fst =
      .ok [["a", "b"], ["1", "x"]] := by
  have h := import_export_roundtrip ⟨[], false, [], []⟩ (fun _ => 0) "f.csv" "o.csv" 100
    (some "text/csv") ["a", "b"] [["1", " x "]] "t" "t" true true rfl (by decide) rfl
    (by decide) (by decide) (by decide) (by decide) (by decide)
  exact ⟨h.1, h.2.1.trans rfl⟩

/-- C8 counterexample.  The exact round-trip the claim states fails: the cell
`"007"` (unchanged by trimming, no nulls involved) is inserted into a column
inferred INTEGER, the storage affinity stores it as the integer 7, and the
export renders `"7"` — not the trimmed original `"007"`. -/
theorem import_export_roundtrip_counterexample :
    (import_csv true ⟨[], false, [], []⟩ (fun _ => 0) "f.csv" 100 (some "text/csv")
        [["a"], ["007"]] "t" false none).fst = .ok () ∧
    pyStrip "007" = "007" ∧
    (export_table_to_csv true (import_csv true ⟨[], false, [], []⟩ (fun _ => 0) "f.csv" 100
        (some "text/csv") [["a"], ["007"]] "t" false none).snd "t" "o.csv").fst =
      .ok [["a"], ["7"]] ∧
    (export_table_to_csv true (import_csv true ⟨[], false, [], []⟩ (fun _ => 0) "f.csv" 100
        (some "text/csv") [["a"], ["007"]] "t" false none).snd "t" "o.csv").fst ≠
      .ok [["a"], [pyStrip "007"]] := by
  refine ⟨rfl, rfl, rfl, ?_⟩
  intro hc
  have hc2 : ([["a"], ["7"]] : List (List String)) = [["a"], [pyStrip "007"]] :=
    Except.ok.inj hc
  exact absurd hc2 (by decide)

/-- C4 witness: the sanitizer gate instantiated — an index name composed from
two sanitized identifiers matches the pattern. -/
theorem import_csv_identifiers_sanitized_witness :
    isIdent ("idx_" ++ "t" ++ "_" ++ "c") = true :=
  import_csv_identifiers_sanitized.2.2 "t" "c" (by decide) (by decide)

end SqliteCsvImporter
